import Mathlib

/-!
# Verification of the goo widget layout core

Shallow embedding of the layout/composition protocol of the `goo` widget
library: the geometry primitives (`Point`, `Size`, `Constraints`, `Box`,
`Context`), the widget contract, and the four structural widgets
(`Container` in row/column direction, `RootWidget`, `OverlayWidget`,
`DirectionWidget`).

Modelling conventions:
* Go `float32` values are modelled by exact rational arithmetic (`ℚ`);
  the claims under study are algebraic identities about which formula the
  code computes, not about rounding.
* Go `int` is modelled by `Int`.
* A Go `Widget` interface value is exactly a pair of its two methods,
  so a child widget is modelled as a structure holding a `Constraints`
  value (`GetConstraints`) and a render function (`Render`).
* Go's `(usedSize Size, err error)` multiple return is modelled as
  `Size × Option Err`; `nil` error is `none`.
* Go enum-like `int` types (`Direction`, `FlexType`, `Gravity`) are kept
  as `Int` with named constants, so that out-of-range values behave as in
  the source (fall through to the `default` / zero-value behaviour).
-/

/-- 2D coordinate (Go `interfaces.Point`). -/
structure Point where
  x : ℚ
  y : ℚ
deriving DecidableEq, Repr

/-- Width/height extent (Go `interfaces.Size`). -/
structure Size where
  width : ℚ
  height : ℚ
deriving DecidableEq, Repr

/-- Size range plus absolute offset (Go `interfaces.Constraints`). -/
structure Constraints where
  minWidth : ℚ
  minHeight : ℚ
  maxWidth : ℚ
  maxHeight : ℚ
  top : ℚ
  left : ℚ
deriving DecidableEq, Repr

/-- Resolved placement handed to a render call (Go `interfaces.Box`). -/
structure Box where
  position : Point
  size : Size
  constraints : Constraints
deriving DecidableEq, Repr

/-- Rectangular region (Go `interfaces.Rect`). -/
structure Rect where
  x : ℚ
  y : ℚ
  width : ℚ
  height : ℚ
deriving DecidableEq, Repr

/-- Render errors. `invalidDirection` is the structural error
`errInvalidDirection` ("invalid direction"); `drawing` stands for an
arbitrary drawing error raised by a leaf's external collaborator. -/
inductive Err where
  | invalidDirection : Err
  | drawing : Nat → Err
deriving DecidableEq, Repr

/-- Per-call render context (Go `interfaces.Context`). The `ParentBox`
pointer is modelled as `Option Box` (`nil` = `none`), and the nil
`PaintedRegions` slice of a freshly built child context as `[]`. -/
structure Context where
  windowWidth : Int
  windowHeight : Int
  parentBox : Option Box
  availableSize : Size
  paintedRegions : List Rect

/-- Result of a render call: Go's `(usedSize Size, err error)` pair. -/
abbrev RenderResult := Size × Option Err

/-- A Go `Widget` interface value: its `GetConstraints` result and its
`Render` method. Structural widgets are separate structures below whose
render functions call their children through this record, exactly as the
Go code calls through the interface. -/
structure Widget where
  getConstraints : Constraints
  render : Context → Box → RenderResult

/-- Layout direction constants (Go `Direction`, an `int`). -/
def DirectionRow : Int := 0

/-- Column direction constant. -/
def DirectionColumn : Int := 1

/-- Flex-type constants (Go `FlexType`, an `int`). -/
def FlexTypeRigid : Int := 0

/-- Flex (weighted) child type constant. -/
def FlexTypeFlex : Int := 1

/-- A container child slot (Go `FlexChild`). -/
structure FlexChild where
  widget : Widget
  type : Int
  weight : ℚ

/-- Flex container (Go `Container`). -/
structure Container where
  direction : Int
  children : List FlexChild
  constraints : Constraints

/-- The child context each structural widget builds before recursing:
`&Context{WindowWidth, WindowHeight, ParentBox: childBox,
AvailableSize: childBox.Size}` — the same literal at every call site in
the source, factored here. -/
def childContext (ctx : Context) (childBox : Box) : Context :=
  { windowWidth := ctx.windowWidth
    windowHeight := ctx.windowHeight
    parentBox := some childBox
    availableSize := childBox.size
    paintedRegions := [] }

/-- First measure-pass accumulator of `renderRow`: the sum of the rigid
children's `MinWidth` (`rigidWidth`). -/
def Container.rigidWidth (c : Container) : ℚ :=
  c.children.foldl
    (fun acc ch =>
      if ch.type = FlexTypeRigid then acc + ch.widget.getConstraints.minWidth
      else acc) 0

/-- First measure-pass accumulator of `renderColumn`: the sum of the
rigid children's `MinHeight` (`rigidHeight`). -/
def Container.rigidHeight (c : Container) : ℚ :=
  c.children.foldl
    (fun acc ch =>
      if ch.type = FlexTypeRigid then acc + ch.widget.getConstraints.minHeight
      else acc) 0

/-- Total weight of the non-rigid children (`totalFlexWeight`, identical
in `renderRow` and `renderColumn`). -/
def Container.totalFlexWeight (c : Container) : ℚ :=
  c.children.foldl
    (fun acc ch => if ch.type = FlexTypeRigid then acc else acc + ch.weight) 0

/-- `flexWidth := availableWidth - rigidWidth; if flexWidth < 0 { flexWidth = 0 }`. -/
def Container.rowFlexWidth (c : Container) (box : Box) : ℚ :=
  let fw := box.size.width - c.rigidWidth
  if fw < 0 then 0 else fw

/-- `flexHeight := availableHeight - rigidHeight; if flexHeight < 0 { flexHeight = 0 }`. -/
def Container.colFlexHeight (c : Container) (box : Box) : ℚ :=
  let fh := box.size.height - c.rigidHeight
  if fh < 0 then 0 else fh

/-- Second-pass main-axis size of one row child (`childWidth` in
`renderRow`): rigid children get `MinWidth`; with positive total weight a
flex child gets its proportional share clamped (min bound first, then max
bound, as in the source); otherwise `MinWidth`. -/
def rowChildWidth (flexWidth totalFlexWeight : ℚ) (ch : FlexChild) : ℚ :=
  let cc := ch.widget.getConstraints
  if ch.type = FlexTypeRigid then cc.minWidth
  else if totalFlexWeight > 0 then
    let w := flexWidth * ch.weight / totalFlexWeight
    let w := if w < cc.minWidth then cc.minWidth else w
    if w > cc.maxWidth then cc.maxWidth else w
  else cc.minWidth

/-- Second-pass main-axis size of one column child (`childHeight` in
`renderColumn`). -/
def colChildHeight (flexHeight totalFlexWeight : ℚ) (ch : FlexChild) : ℚ :=
  let cc := ch.widget.getConstraints
  if ch.type = FlexTypeRigid then cc.minHeight
  else if totalFlexWeight > 0 then
    let h := flexHeight * ch.weight / totalFlexWeight
    let h := if h < cc.minHeight then cc.minHeight else h
    if h > cc.maxHeight then cc.maxHeight else h
  else cc.minHeight

/-- The box `renderRow` hands to a child: placed at the cursor offset
`currentX` from the container's position, full available height
(cross-axis fill), the child's own constraints attached. -/
def rowChildBox (box : Box) (flexWidth totalFlexWeight currentX : ℚ)
    (ch : FlexChild) : Box :=
  { position := ⟨box.position.x + currentX, box.position.y⟩
    size := ⟨rowChildWidth flexWidth totalFlexWeight ch, box.size.height⟩
    constraints := ch.widget.getConstraints }

/-- The box `renderColumn` hands to a child. -/
def colChildBox (box : Box) (flexHeight totalFlexWeight currentY : ℚ)
    (ch : FlexChild) : Box :=
  { position := ⟨box.position.x, box.position.y + currentY⟩
    size := ⟨box.size.width, colChildHeight flexHeight totalFlexWeight ch⟩
    constraints := ch.widget.getConstraints }

/-- Second-pass loop of `renderRow`, over the remaining children with the
accumulators `currentX`, `actualUsedWidth`, `actualMaxHeight`. A child
error aborts with `(Size{}, err)`. The measure pass also tracks a
`maxHeight` of child minimums that the source never reads afterwards; it
is omitted. -/
def renderRowLoop (ctx : Context) (box : Box) (flexWidth totalFlexWeight : ℚ) :
    List FlexChild → ℚ → ℚ → ℚ → RenderResult
  | [], _, usedW, maxH => (⟨usedW, maxH⟩, none)
  | ch :: rest, currentX, usedW, maxH =>
    let childBox := rowChildBox box flexWidth totalFlexWeight currentX ch
    match ch.widget.render (childContext ctx childBox) childBox with
    | (_, some e) => (⟨0, 0⟩, some e)
    | (us, none) =>
      renderRowLoop ctx box flexWidth totalFlexWeight rest
        (currentX + us.width) (usedW + us.width)
        (if us.height > maxH then us.height else maxH)

/-- Second-pass loop of `renderColumn` (accumulators `currentY`,
`actualUsedHeight`, `actualMaxWidth`). -/
def renderColumnLoop (ctx : Context) (box : Box) (flexHeight totalFlexWeight : ℚ) :
    List FlexChild → ℚ → ℚ → ℚ → RenderResult
  | [], _, usedH, maxW => (⟨maxW, usedH⟩, none)
  | ch :: rest, currentY, usedH, maxW =>
    let childBox := colChildBox box flexHeight totalFlexWeight currentY ch
    match ch.widget.render (childContext ctx childBox) childBox with
    | (_, some e) => (⟨0, 0⟩, some e)
    | (us, none) =>
      renderColumnLoop ctx box flexHeight totalFlexWeight rest
        (currentY + us.height) (usedH + us.height)
        (if us.width > maxW then us.width else maxW)

/-- `Container.renderRow`. -/
def Container.renderRow (c : Container) (ctx : Context) (box : Box) : RenderResult :=
  renderRowLoop ctx box (c.rowFlexWidth box) c.totalFlexWeight c.children 0 0 0

/-- `Container.renderColumn`. -/
def Container.renderColumn (c : Container) (ctx : Context) (box : Box) : RenderResult :=
  renderColumnLoop ctx box (c.colFlexHeight box) c.totalFlexWeight c.children 0 0 0

/-- `Container.Render`: empty containers return `(Size{}, nil)` before the
direction switch; the switch dispatches on row/column and fails with
`errInvalidDirection` otherwise. -/
def Container.render (c : Container) (ctx : Context) (box : Box) : RenderResult :=
  if c.children.isEmpty then (⟨0, 0⟩, none)
  else if c.direction = DirectionRow then c.renderRow ctx box
  else if c.direction = DirectionColumn then c.renderColumn ctx box
  else (⟨0, 0⟩, some .invalidDirection)

/-- Root widget (Go `RootWidget`); the clear color does not influence
layout. -/
structure RootWidget where
  child : Option Widget
  clearColor : ℚ × ℚ × ℚ × ℚ

/-- The box `RootWidget.Render` builds for its child: position
`(Left, Top)` taken as absolute canvas offsets, size filling the canvas
from there, then the max clamps applied before the min clamps. -/
def rootChildBox (cc : Constraints) (canvasWidth canvasHeight : ℚ) : Box :=
  let w0 := canvasWidth - cc.left
  let h0 := canvasHeight - cc.top
  let w1 := if cc.maxWidth < w0 then cc.maxWidth else w0
  let h1 := if cc.maxHeight < h0 then cc.maxHeight else h0
  let w2 := if cc.minWidth > w1 then cc.minWidth else w1
  let h2 := if cc.minHeight > h1 then cc.minHeight else h1
  { position := ⟨cc.left, cc.top⟩
    size := ⟨w2, h2⟩
    constraints := cc }

/-- `RootWidget.Render`. -/
def RootWidget.render (r : RootWidget) (ctx : Context) (box : Box) : RenderResult :=
  match r.child with
  | none => (box.size, none)
  | some child =>
    let cc := child.getConstraints
    let childBox := rootChildBox cc (ctx.windowWidth : ℚ) (ctx.windowHeight : ℚ)
    child.render (childContext ctx childBox) childBox

/-- Overlay compositor (Go `OverlayWidget`). -/
structure OverlayWidget where
  children : List Widget
  constraints : Constraints

/-- The box `OverlayWidget.Render` builds for one child: offset by the
child's `(Left, Top)` from the parent position, initial size the parent
size minus the offset; per axis, a rigid axis (`min == max`) is forced to
exactly `min`, a flexible axis is clamped max bound first, min bound
second. -/
def overlayChildBox (box : Box) (cc : Constraints) : Box :=
  let w0 := box.size.width - cc.left
  let h0 := box.size.height - cc.top
  let w :=
    if cc.minWidth = cc.maxWidth then cc.minWidth
    else
      let w1 := if cc.maxWidth < w0 then cc.maxWidth else w0
      if cc.minWidth > w1 then cc.minWidth else w1
  let h :=
    if cc.minHeight = cc.maxHeight then cc.minHeight
    else
      let h1 := if cc.maxHeight < h0 then cc.maxHeight else h0
      if cc.minHeight > h1 then cc.minHeight else h1
  { position := ⟨box.position.x + cc.left, box.position.y + cc.top⟩
    size := ⟨w, h⟩
    constraints := cc }

/-- The child loop of `OverlayWidget.Render`, carrying the running
`maxUsedSize`. -/
def overlayLoop (ctx : Context) (box : Box) : List Widget → Size → RenderResult
  | [], maxUsed => (maxUsed, none)
  | child :: rest, maxUsed =>
    let childBox := overlayChildBox box child.getConstraints
    match child.render (childContext ctx childBox) childBox with
    | (_, some e) => (⟨0, 0⟩, some e)
    | (us, none) =>
      overlayLoop ctx box rest
        ⟨if us.width > maxUsed.width then us.width else maxUsed.width,
         if us.height > maxUsed.height then us.height else maxUsed.height⟩

/-- `OverlayWidget.Render`. -/
def OverlayWidget.render (o : OverlayWidget) (ctx : Context) (box : Box) : RenderResult :=
  overlayLoop ctx box o.children ⟨0, 0⟩

/-- Gravity constants (Go `Gravity`, an `int`). -/
def GravityCenter : Int := 0

/-- North gravity. -/
def GravityNorth : Int := 1

/-- South gravity. -/
def GravitySouth : Int := 2

/-- East gravity. -/
def GravityEast : Int := 3

/-- West gravity. -/
def GravityWest : Int := 4

/-- North-east gravity. -/
def GravityNorthEast : Int := 5

/-- North-west gravity. -/
def GravityNorthWest : Int := 6

/-- South-east gravity. -/
def GravitySouthEast : Int := 7

/-- South-west gravity. -/
def GravitySouthWest : Int := 8

/-- Gravity positioner (Go `DirectionWidget`). -/
structure DirectionWidget where
  child : Option Widget
  gravity : Int
  constraints : Constraints

/-- Resolved child size of the gravity positioner: per axis, exactly
`min` when `min == max`, otherwise the parent box size clamped max bound
first, min bound second. -/
def gravityChildSize (cc : Constraints) (box : Box) : Size :=
  let w :=
    if cc.minWidth = cc.maxWidth then cc.minWidth
    else
      let w0 := box.size.width
      let w1 := if w0 > cc.maxWidth then cc.maxWidth else w0
      if w1 < cc.minWidth then cc.minWidth else w1
  let h :=
    if cc.minHeight = cc.maxHeight then cc.minHeight
    else
      let h0 := box.size.height
      let h1 := if h0 > cc.maxHeight then cc.maxHeight else h0
      if h1 < cc.minHeight then cc.minHeight else h1
  ⟨w, h⟩

/-- The gravity `switch` on child position; an out-of-range gravity value
leaves `childX`, `childY` at their zero values, as in the source. -/
def gravityChildPos (g : Int) (box : Box) (cw chh : ℚ) : Point :=
  if g = GravityCenter then
    ⟨box.position.x + (box.size.width - cw) / 2,
     box.position.y + (box.size.height - chh) / 2⟩
  else if g = GravityNorth then
    ⟨box.position.x + (box.size.width - cw) / 2, box.position.y⟩
  else if g = GravitySouth then
    ⟨box.position.x + (box.size.width - cw) / 2,
     box.position.y + box.size.height - chh⟩
  else if g = GravityEast then
    ⟨box.position.x + box.size.width - cw,
     box.position.y + (box.size.height - chh) / 2⟩
  else if g = GravityWest then
    ⟨box.position.x, box.position.y + (box.size.height - chh) / 2⟩
  else if g = GravityNorthEast then
    ⟨box.position.x + box.size.width - cw, box.position.y⟩
  else if g = GravityNorthWest then
    ⟨box.position.x, box.position.y⟩
  else if g = GravitySouthEast then
    ⟨box.position.x + box.size.width - cw,
     box.position.y + box.size.height - chh⟩
  else if g = GravitySouthWest then
    ⟨box.position.x, box.position.y + box.size.height - chh⟩
  else ⟨0, 0⟩

/-- `DirectionWidget.Render`. -/
def DirectionWidget.render (d : DirectionWidget) (ctx : Context) (box : Box) :
    RenderResult :=
  match d.child with
  | none => (box.size, none)
  | some child =>
    let cc := child.getConstraints
    let cs := gravityChildSize cc box
    let childBox : Box :=
      { position := gravityChildPos d.gravity box cs.width cs.height
        size := cs
        constraints := cc }
    child.render (childContext ctx childBox) childBox

/-!
## Specification-level descriptions

The following definitions transcribe the *spec's* description of the row,
column and overlay passes, for refinement theorems comparing them with
the accumulator loops above: each child of a row is rendered in a box at
`x = container x + (sum of the previous children's returned used
widths)`, `y = container y`, with the assigned main-axis size and the
container's full available height; the container's used size is the sum
of the children's used widths paired with the maximum of their used
heights; the first error aborts and is returned unchanged.
-/

/-- Spec-level row pass: `off` is the sum of the used widths of the
children already placed. -/
def rowRenderSpecLoop (ctx : Context) (box : Box) (flexWidth totalFlexWeight : ℚ) :
    List FlexChild → ℚ → RenderResult
  | [], _ => (⟨0, 0⟩, none)
  | ch :: rest, off =>
    let childBox : Box :=
      { position := ⟨box.position.x + off, box.position.y⟩
        size := ⟨rowChildWidth flexWidth totalFlexWeight ch, box.size.height⟩
        constraints := ch.widget.getConstraints }
    match ch.widget.render (childContext ctx childBox) childBox with
    | (_, some e) => (⟨0, 0⟩, some e)
    | (us, none) =>
      match rowRenderSpecLoop ctx box flexWidth totalFlexWeight rest (off + us.width) with
      | (_, some e) => (⟨0, 0⟩, some e)
      | (s, none) => (⟨us.width + s.width, max us.height s.height⟩, none)

/-- Spec-level row render. -/
def rowRenderSpec (c : Container) (ctx : Context) (box : Box) : RenderResult :=
  rowRenderSpecLoop ctx box (c.rowFlexWidth box) c.totalFlexWeight c.children 0

/-- Spec-level column pass, axes swapped relative to the row pass. -/
def colRenderSpecLoop (ctx : Context) (box : Box) (flexHeight totalFlexWeight : ℚ) :
    List FlexChild → ℚ → RenderResult
  | [], _ => (⟨0, 0⟩, none)
  | ch :: rest, off =>
    let childBox : Box :=
      { position := ⟨box.position.x, box.position.y + off⟩
        size := ⟨box.size.width, colChildHeight flexHeight totalFlexWeight ch⟩
        constraints := ch.widget.getConstraints }
    match ch.widget.render (childContext ctx childBox) childBox with
    | (_, some e) => (⟨0, 0⟩, some e)
    | (us, none) =>
      match colRenderSpecLoop ctx box flexHeight totalFlexWeight rest (off + us.height) with
      | (_, some e) => (⟨0, 0⟩, some e)
      | (s, none) => (⟨max us.width s.width, us.height + s.height⟩, none)

/-- Spec-level column render. -/
def colRenderSpec (c : Container) (ctx : Context) (box : Box) : RenderResult :=
  colRenderSpecLoop ctx box (c.colFlexHeight box) c.totalFlexWeight c.children 0

/-- Spec-level overlay pass: every child is rendered in declaration
order in the box derived from its own constraints, and the used size is
the per-axis maximum of the children's used sizes. -/
def overlayRenderSpecLoop (ctx : Context) (box : Box) : List Widget → RenderResult
  | [] => (⟨0, 0⟩, none)
  | child :: rest =>
    let childBox := overlayChildBox box child.getConstraints
    match child.render (childContext ctx childBox) childBox with
    | (_, some e) => (⟨0, 0⟩, some e)
    | (us, none) =>
      match overlayRenderSpecLoop ctx box rest with
      | (_, some e) => (⟨0, 0⟩, some e)
      | (s, none) => (⟨max us.width s.width, max us.height s.height⟩, none)

/-!
## Helper lemmas
-/

/-- A `foldl` that adds `f x` exactly for the elements satisfying `p` is
the sum of `f` over those elements. -/
theorem foldl_if_add_eq_sum {α : Type} (p : α → Prop) [DecidablePred p] (f : α → ℚ) :
    ∀ (l : List α) (a : ℚ),
      l.foldl (fun acc x => if p x then acc + f x else acc) a
        = a + (l.map fun x => if p x then f x else 0).sum := by
  intro l
  induction l with
  | nil => intro a; simp
  | cons x xs ih =>
    intro a
    by_cases hx : p x
    · simp only [List.foldl_cons, if_pos hx, List.map_cons, List.sum_cons]
      rw [ih]
      ring
    · simp only [List.foldl_cons, if_neg hx, List.map_cons, List.sum_cons]
      rw [ih, zero_add]

/-- A `foldl` that adds `f x` exactly for the elements violating `p` is
the sum of `f` over those elements. -/
theorem foldl_if_skip_eq_sum {α : Type} (p : α → Prop) [DecidablePred p] (f : α → ℚ) :
    ∀ (l : List α) (a : ℚ),
      l.foldl (fun acc x => if p x then acc else acc + f x) a
        = a + (l.map fun x => if p x then 0 else f x).sum := by
  intro l
  induction l with
  | nil => intro a; simp
  | cons x xs ih =>
    intro a
    by_cases hx : p x
    · simp only [List.foldl_cons, if_pos hx, List.map_cons, List.sum_cons]
      rw [ih, zero_add]
    · simp only [List.foldl_cons, if_neg hx, List.map_cons, List.sum_cons]
      rw [ih]
      ring

/-- The max-bound-then-min-bound clamp written with `<` guards (the
`RootWidget`/`OverlayWidget` form) equals `max lo (min hi v)`. -/
theorem clamp_max_then_min (lo hi v : ℚ) :
    (if lo > (if hi < v then hi else v) then lo else (if hi < v then hi else v))
      = max lo (min hi v) := by
  rw [max_def, min_def]
  split_ifs <;> linarith

/-- The max-bound-then-min-bound clamp written with `>`/`<` on the value
(the `DirectionWidget` form) equals `max lo (min hi v)`. -/
theorem clamp_max_then_min_gt (lo hi v : ℚ) :
    (if (if v > hi then hi else v) < lo then lo else (if v > hi then hi else v))
      = max lo (min hi v) := by
  rw [max_def, min_def]
  split_ifs <;> linarith

/-- The min-bound-then-max-bound clamp (the `renderRow`/`renderColumn`
flex-share form) also equals `max lo (min hi v)` when `lo ≤ hi`. -/
theorem clamp_min_then_max (lo hi v : ℚ) (h : lo ≤ hi) :
    (if (if v < lo then lo else v) > hi then hi else (if v < lo then lo else v))
      = max lo (min hi v) := by
  rw [max_def, min_def]
  split_ifs <;> linarith

/-- `renderRowLoop` reports the zero size alongside any error. -/
theorem renderRowLoop_error_size (ctx : Context) (box : Box) (fW tW : ℚ) :
    ∀ (cs : List FlexChild) (off uW mH : ℚ) (s : Size) (e : Err),
    renderRowLoop ctx box fW tW cs off uW mH = (s, some e) → s = ⟨0, 0⟩ := by
  intro cs
  induction cs with
  | nil =>
    intro off uW mH s e h
    simp only [renderRowLoop] at h
    simp at h
  | cons ch rest ih =>
    intro off uW mH s e h
    simp only [renderRowLoop] at h
    split at h
    · cases h; rfl
    next us heq => exact ih _ _ _ _ _ h

/-- `renderColumnLoop` reports the zero size alongside any error. -/
theorem renderColumnLoop_error_size (ctx : Context) (box : Box) (fH tW : ℚ) :
    ∀ (cs : List FlexChild) (off uH mW : ℚ) (s : Size) (e : Err),
    renderColumnLoop ctx box fH tW cs off uH mW = (s, some e) → s = ⟨0, 0⟩ := by
  intro cs
  induction cs with
  | nil =>
    intro off uH mW s e h
    simp only [renderColumnLoop] at h
    simp at h
  | cons ch rest ih =>
    intro off uH mW s e h
    simp only [renderColumnLoop] at h
    split at h
    · cases h; rfl
    next us heq => exact ih _ _ _ _ _ h

/-- `overlayLoop` reports the zero size alongside any error. -/
theorem overlayLoop_error_size (ctx : Context) (box : Box) :
    ∀ (cs : List Widget) (maxUsed s : Size) (e : Err),
    overlayLoop ctx box cs maxUsed = (s, some e) → s = ⟨0, 0⟩ := by
  intro cs
  induction cs with
  | nil =>
    intro maxUsed s e h
    simp only [overlayLoop] at h
    simp at h
  | cons child rest ih =>
    intro maxUsed s e h
    simp only [overlayLoop] at h
    split at h
    · cases h; rfl
    next us heq => exact ih _ _ _ h

/-- Closed form of the root child box: position `(left, top)` and, on
each axis, the canvas fill clamped with the max bound applied before the
min bound, i.e. `max lo (min hi (canvas − offset))`. -/
theorem rootChildBox_closed (cc : Constraints) (cw chh : ℚ) :
    rootChildBox cc cw chh
      = { position := ⟨cc.left, cc.top⟩
          size := ⟨max cc.minWidth (min cc.maxWidth (cw - cc.left)),
                   max cc.minHeight (min cc.maxHeight (chh - cc.top))⟩
          constraints := cc } := by
  simp only [rootChildBox]
  rw [clamp_max_then_min, clamp_max_then_min]

/-- A successful spec-level row pass reports a non-negative used height
(the running maximum starts from zero). -/
theorem rowRenderSpecLoop_height_nonneg (ctx : Context) (box : Box)
    (fW tW : ℚ) : ∀ (cs : List FlexChild) (off : ℚ) (s : Size),
    rowRenderSpecLoop ctx box fW tW cs off = (s, none) → 0 ≤ s.height := by
  intro cs
  induction cs with
  | nil =>
    intro off s h
    simp only [rowRenderSpecLoop] at h
    cases h
    norm_num
  | cons ch rest ih =>
    intro off s h
    simp only [rowRenderSpecLoop] at h
    split at h
    · simp at h
    next us heq =>
      split at h
      · simp at h
      next s' heq' =>
        cases h
        exact le_trans (ih _ _ heq') (le_max_right _ _)

/-- A successful spec-level column pass reports a non-negative used
width. -/
theorem colRenderSpecLoop_width_nonneg (ctx : Context) (box : Box)
    (fH tW : ℚ) : ∀ (cs : List FlexChild) (off : ℚ) (s : Size),
    colRenderSpecLoop ctx box fH tW cs off = (s, none) → 0 ≤ s.width := by
  intro cs
  induction cs with
  | nil =>
    intro off s h
    simp only [colRenderSpecLoop] at h
    cases h
    norm_num
  | cons ch rest ih =>
    intro off s h
    simp only [colRenderSpecLoop] at h
    split at h
    · simp at h
    next us heq =>
      split at h
      · simp at h
      next s' heq' =>
        cases h
        exact le_trans (ih _ _ heq') (le_max_right _ _)

/-- The source's running-maximum update (`if b > a { a = b }`) is `max`. -/
theorem if_gt_eq_max (a b : ℚ) : (if b > a then b else a) = max a b := by
  rw [max_def]
  split_ifs <;> linarith

/-- A spec-level row pass that fails reports the zero size. -/
theorem rowRenderSpecLoop_error_size (ctx : Context) (box : Box)
    (fW tW : ℚ) : ∀ (cs : List FlexChild) (off : ℚ) (s : Size) (e : Err),
    rowRenderSpecLoop ctx box fW tW cs off = (s, some e) → s = ⟨0, 0⟩ := by
  intro cs
  induction cs with
  | nil =>
    intro off s e h
    simp only [rowRenderSpecLoop] at h
    simp at h
  | cons ch rest ih =>
    intro off s e h
    simp only [rowRenderSpecLoop] at h
    split at h
    · cases h; rfl
    next us heq =>
      split at h
      · cases h; rfl
      next s' heq' => simp at h

/-- A spec-level column pass that fails reports the zero size. -/
theorem colRenderSpecLoop_error_size (ctx : Context) (box : Box)
    (fH tW : ℚ) : ∀ (cs : List FlexChild) (off : ℚ) (s : Size) (e : Err),
    colRenderSpecLoop ctx box fH tW cs off = (s, some e) → s = ⟨0, 0⟩ := by
  intro cs
  induction cs with
  | nil =>
    intro off s e h
    simp only [colRenderSpecLoop] at h
    simp at h
  | cons ch rest ih =>
    intro off s e h
    simp only [colRenderSpecLoop] at h
    split at h
    · cases h; rfl
    next us heq =>
      split at h
      · cases h; rfl
      next s' heq' => simp at h

/-- A spec-level overlay pass that fails reports the zero size. -/
theorem overlayRenderSpecLoop_error_size (ctx : Context) (box : Box) :
    ∀ (cs : List Widget) (s : Size) (e : Err),
    overlayRenderSpecLoop ctx box cs = (s, some e) → s = ⟨0, 0⟩ := by
  intro cs
  induction cs with
  | nil =>
    intro s e h
    simp only [overlayRenderSpecLoop] at h
    simp at h
  | cons child rest ih =>
    intro s e h
    simp only [overlayRenderSpecLoop] at h
    split at h
    · cases h; rfl
    next us heq =>
      split at h
      · cases h; rfl
      next s' heq' => simp at h

/-- A successful spec-level overlay pass reports a non-negative used
size. -/
theorem overlayRenderSpecLoop_nonneg (ctx : Context) (box : Box) :
    ∀ (cs : List Widget) (s : Size),
    overlayRenderSpecLoop ctx box cs = (s, none) → 0 ≤ s.width ∧ 0 ≤ s.height := by
  intro cs
  induction cs with
  | nil =>
    intro s h
    simp only [overlayRenderSpecLoop] at h
    cases h
    norm_num
  | cons child rest ih =>
    intro s h
    simp only [overlayRenderSpecLoop] at h
    split at h
    · simp at h
    next us heq =>
      split at h
      · simp at h
      next s' heq' =>
        cases h
        rcases ih _ heq' with ⟨h1, h2⟩
        exact ⟨le_trans h1 (le_max_right _ _), le_trans h2 (le_max_right _ _)⟩

/-- Loop invariant relating `renderRowLoop` (three accumulators) to the
spec-level row pass: threading `usedW` and a non-negative running
maximum through the loop is adding them onto the composed result. -/
theorem renderRowLoop_eq_spec (ctx : Context) (box : Box) (fW tW : ℚ) :
    ∀ (cs : List FlexChild) (off uW mH : ℚ), 0 ≤ mH →
      renderRowLoop ctx box fW tW cs off uW mH
        = match rowRenderSpecLoop ctx box fW tW cs off with
          | (_, some e) => (⟨0, 0⟩, some e)
          | (s, none) => (⟨uW + s.width, max mH s.height⟩, none) := by
  intro cs
  induction cs with
  | nil =>
    intro off uW mH hmH
    simp only [renderRowLoop, rowRenderSpecLoop]
    rw [add_zero, max_eq_left hmH]
  | cons ch rest ih =>
    intro off uW mH hmH
    simp only [renderRowLoop, rowRenderSpecLoop, rowChildBox]
    rcases hr : ch.widget.render
        (childContext ctx
          { position := ⟨box.position.x + off, box.position.y⟩
            size := ⟨rowChildWidth fW tW ch, box.size.height⟩
            constraints := ch.widget.getConstraints })
        { position := ⟨box.position.x + off, box.position.y⟩
          size := ⟨rowChildWidth fW tW ch, box.size.height⟩
          constraints := ch.widget.getConstraints } with ⟨us, e⟩
    cases e with
    | some e => rfl
    | none =>
      simp only
      have hmH' : 0 ≤ if us.height > mH then us.height else mH := by
        split
        · linarith
        · exact hmH
      rw [ih (off + us.width) (uW + us.width) _ hmH']
      rcases hrest : rowRenderSpecLoop ctx box fW tW rest (off + us.width) with ⟨s', e'⟩
      cases e' with
      | some e => rfl
      | none =>
        simp only
        rw [if_gt_eq_max, add_assoc, max_assoc]

/-- Loop invariant relating `renderColumnLoop` to the spec-level column
pass. -/
theorem renderColumnLoop_eq_spec (ctx : Context) (box : Box) (fH tW : ℚ) :
    ∀ (cs : List FlexChild) (off uH mW : ℚ), 0 ≤ mW →
      renderColumnLoop ctx box fH tW cs off uH mW
        = match colRenderSpecLoop ctx box fH tW cs off with
          | (_, some e) => (⟨0, 0⟩, some e)
          | (s, none) => (⟨max mW s.width, uH + s.height⟩, none) := by
  intro cs
  induction cs with
  | nil =>
    intro off uH mW hmW
    simp only [renderColumnLoop, colRenderSpecLoop]
    rw [add_zero, max_eq_left hmW]
  | cons ch rest ih =>
    intro off uH mW hmW
    simp only [renderColumnLoop, colRenderSpecLoop, colChildBox]
    rcases hr : ch.widget.render
        (childContext ctx
          { position := ⟨box.position.x, box.position.y + off⟩
            size := ⟨box.size.width, colChildHeight fH tW ch⟩
            constraints := ch.widget.getConstraints })
        { position := ⟨box.position.x, box.position.y + off⟩
          size := ⟨box.size.width, colChildHeight fH tW ch⟩
          constraints := ch.widget.getConstraints } with ⟨us, e⟩
    cases e with
    | some e => rfl
    | none =>
      simp only
      have hmW' : 0 ≤ if us.width > mW then us.width else mW := by
        split
        · linarith
        · exact hmW
      rw [ih (off + us.height) (uH + us.height) _ hmW']
      rcases hrest : colRenderSpecLoop ctx box fH tW rest (off + us.height) with ⟨s', e'⟩
      cases e' with
      | some e => rfl
      | none =>
        simp only
        rw [if_gt_eq_max, add_assoc, max_assoc]

/-- Loop invariant relating `overlayLoop` to the spec-level overlay
pass. -/
theorem overlayLoop_eq_spec (ctx : Context) (box : Box) :
    ∀ (cs : List Widget) (maxUsed : Size),
      0 ≤ maxUsed.width → 0 ≤ maxUsed.height →
      overlayLoop ctx box cs maxUsed
        = match overlayRenderSpecLoop ctx box cs with
          | (_, some e) => (⟨0, 0⟩, some e)
          | (s, none) =>
              (⟨max maxUsed.width s.width, max maxUsed.height s.height⟩, none) := by
  intro cs
  induction cs with
  | nil =>
    intro maxUsed hw hh
    simp only [overlayLoop, overlayRenderSpecLoop]
    rw [max_eq_left hw, max_eq_left hh]
  | cons child rest ih =>
    intro maxUsed hw hh
    simp only [overlayLoop, overlayRenderSpecLoop]
    rcases hr : child.render
        (childContext ctx (overlayChildBox box child.getConstraints))
        (overlayChildBox box child.getConstraints) with ⟨us, e⟩
    cases e with
    | some e => rfl
    | none =>
      simp only
      have hw' : 0 ≤ if us.width > maxUsed.width then us.width else maxUsed.width := by
        split
        · linarith
        · exact hw
      have hh' : 0 ≤ if us.height > maxUsed.height then us.height else maxUsed.height := by
        split
        · linarith
        · exact hh
      rw [ih ⟨if us.width > maxUsed.width then us.width else maxUsed.width,
              if us.height > maxUsed.height then us.height else maxUsed.height⟩ hw' hh']
      rcases hrest : overlayRenderSpecLoop ctx box rest with ⟨s', e'⟩
      cases e' with
      | some e => rfl
      | none =>
        simp only
        rw [if_gt_eq_max, if_gt_eq_max, max_assoc, max_assoc]

/-- `Container.renderRow` equals the spec-level row pass. -/
theorem Container.renderRow_eq_spec (c : Container) (ctx : Context) (box : Box) :
    c.renderRow ctx box = rowRenderSpec c ctx box := by
  unfold Container.renderRow rowRenderSpec
  rw [renderRowLoop_eq_spec ctx box _ _ c.children 0 0 0 le_rfl]
  rcases hs : rowRenderSpecLoop ctx box (c.rowFlexWidth box) c.totalFlexWeight
      c.children 0 with ⟨s, e⟩
  cases e with
  | some e => rw [rowRenderSpecLoop_error_size ctx box _ _ _ _ _ _ hs]
  | none =>
    simp only
    rw [zero_add, max_eq_right (rowRenderSpecLoop_height_nonneg ctx box _ _ _ _ _ hs)]

/-- `Container.renderColumn` equals the spec-level column pass. -/
theorem Container.renderColumn_eq_spec (c : Container) (ctx : Context) (box : Box) :
    c.renderColumn ctx box = colRenderSpec c ctx box := by
  unfold Container.renderColumn colRenderSpec
  rw [renderColumnLoop_eq_spec ctx box _ _ c.children 0 0 0 le_rfl]
  rcases hs : colRenderSpecLoop ctx box (c.colFlexHeight box) c.totalFlexWeight
      c.children 0 with ⟨s, e⟩
  cases e with
  | some e => rw [colRenderSpecLoop_error_size ctx box _ _ _ _ _ _ hs]
  | none =>
    simp only
    rw [zero_add, max_eq_right (colRenderSpecLoop_width_nonneg ctx box _ _ _ _ _ hs)]

/-- `OverlayWidget.render` equals the spec-level overlay pass. -/
theorem OverlayWidget.render_eq_spec (o : OverlayWidget) (ctx : Context) (box : Box) :
    o.render ctx box = overlayRenderSpecLoop ctx box o.children := by
  unfold OverlayWidget.render
  rw [overlayLoop_eq_spec ctx box o.children ⟨0, 0⟩ le_rfl le_rfl]
  rcases hs : overlayRenderSpecLoop ctx box o.children with ⟨s, e⟩
  cases e with
  | some e => rw [overlayRenderSpecLoop_error_size ctx box _ _ _ hs]
  | none =>
    simp only
    rcases overlayRenderSpecLoop_nonneg ctx box _ _ hs with ⟨h1, h2⟩
    rw [max_eq_right h1, max_eq_right h2]

/-!
## Sample data for the concrete witnesses
-/

/-- Sample render context (an 800×600 canvas). -/
def sampleCtx : Context := ⟨800, 600, none, ⟨800, 600⟩, []⟩

/-- Sample parent box. -/
def sampleBox : Box := ⟨⟨10, 20⟩, ⟨300, 100⟩, ⟨0, 0, 1000000000, 1000000000, 0, 0⟩⟩

/-- A leaf widget that always succeeds, reporting the fixed size `(w, h)`. -/
def sampleLeaf (cs : Constraints) (w h : ℚ) : Widget :=
  ⟨cs, fun _ _ => (⟨w, h⟩, none)⟩

/-- A leaf widget whose drawing collaborator always fails with `e`. -/
def failLeaf (cs : Constraints) (e : Err) : Widget :=
  ⟨cs, fun _ _ => (⟨0, 0⟩, some e)⟩

/-- A flexible sample child of weight 1 with width range `[0, 50]`. -/
def sampleFlexChild : FlexChild :=
  ⟨sampleLeaf ⟨0, 0, 50, 60, 0, 0⟩ 0 0, FlexTypeFlex, 1⟩

/-- A rigid sample child of minimum size `(50, 30)`. -/
def sampleRigidChild : FlexChild :=
  ⟨sampleLeaf ⟨50, 30, 50, 30, 0, 0⟩ 50 30, FlexTypeRigid, 0⟩

/-- A sample child whose render always fails with drawing error 7. -/
def sampleFailChild : FlexChild :=
  ⟨failLeaf ⟨0, 0, 50, 60, 0, 0⟩ (.drawing 7), FlexTypeRigid, 0⟩

/-!
## Claims
-/

/-- C1: in the distribute pass of a row or column render, a rigid child
is assigned exactly its main-axis minimum; `flexMain` is
`max 0 (availableMain − rigidMain)` where `rigidMain` sums the rigid
children's main-axis minimums and `totalWeight` sums the flex children's
weights; a flex child with positive total weight is assigned
`flexMain * weight / totalWeight` clamped into
`[childMinMain, childMaxMain]`; and with total weight zero every flex
child is assigned exactly its own minimum, ignoring weight and available
space. (`renderRow`/`renderColumn` assign main-axis sizes through
`rowChildWidth`/`colChildHeight` inside `rowChildBox`/`colChildBox`.) -/
theorem container_distribute_pass :
    (∀ c : Container, c.rigidWidth
        = (c.children.map fun ch =>
            if ch.type = FlexTypeRigid then ch.widget.getConstraints.minWidth else 0).sum)
  ∧ (∀ c : Container, c.rigidHeight
        = (c.children.map fun ch =>
            if ch.type = FlexTypeRigid then ch.widget.getConstraints.minHeight else 0).sum)
  ∧ (∀ c : Container, c.totalFlexWeight
        = (c.children.map fun ch =>
            if ch.type = FlexTypeRigid then 0 else ch.weight).sum)
  ∧ (∀ (c : Container) (box : Box),
        c.rowFlexWidth box = max 0 (box.size.width - c.rigidWidth))
  ∧ (∀ (c : Container) (box : Box),
        c.colFlexHeight box = max 0 (box.size.height - c.rigidHeight))
  ∧ (∀ (fW tW : ℚ) (ch : FlexChild), ch.type = FlexTypeRigid →
        rowChildWidth fW tW ch = ch.widget.getConstraints.minWidth
        ∧ colChildHeight fW tW ch = ch.widget.getConstraints.minHeight)
  ∧ (∀ (fW tW : ℚ) (ch : FlexChild), ch.type ≠ FlexTypeRigid → 0 < tW →
        (ch.widget.getConstraints.minWidth ≤ ch.widget.getConstraints.maxWidth →
          rowChildWidth fW tW ch
            = max ch.widget.getConstraints.minWidth
                (min ch.widget.getConstraints.maxWidth (fW * ch.weight / tW)))
        ∧ (ch.widget.getConstraints.minHeight ≤ ch.widget.getConstraints.maxHeight →
          colChildHeight fW tW ch
            = max ch.widget.getConstraints.minHeight
                (min ch.widget.getConstraints.maxHeight (fW * ch.weight / tW))))
  ∧ (∀ (fW tW : ℚ) (ch : FlexChild), ch.type ≠ FlexTypeRigid → tW = 0 →
        rowChildWidth fW tW ch = ch.widget.getConstraints.minWidth
        ∧ colChildHeight fW tW ch = ch.widget.getConstraints.minHeight) := by
  refine ⟨?_, ?_, ?_, ?_, ?_, ?_, ?_, ?_⟩
  · intro c
    unfold Container.rigidWidth
    rw [foldl_if_add_eq_sum (fun ch => ch.type = FlexTypeRigid)
        (fun ch => ch.widget.getConstraints.minWidth) c.children 0, zero_add]
  · intro c
    unfold Container.rigidHeight
    rw [foldl_if_add_eq_sum (fun ch => ch.type = FlexTypeRigid)
        (fun ch => ch.widget.getConstraints.minHeight) c.children 0, zero_add]
  · intro c
    unfold Container.totalFlexWeight
    rw [foldl_if_skip_eq_sum (fun ch => ch.type = FlexTypeRigid)
        (fun ch => ch.weight) c.children 0, zero_add]
  · intro c box
    simp only [Container.rowFlexWidth, max_def]
    split_ifs <;> linarith
  · intro c box
    simp only [Container.colFlexHeight, max_def]
    split_ifs <;> linarith
  · intro fW tW ch h
    constructor
    · simp only [rowChildWidth]
      rw [if_pos h]
    · simp only [colChildHeight]
      rw [if_pos h]
  · intro fW tW ch hne htW
    constructor
    · intro hle
      simp only [rowChildWidth]
      rw [if_neg hne, if_pos htW, clamp_min_then_max _ _ _ hle]
    · intro hle
      simp only [colChildHeight]
      rw [if_neg hne, if_pos htW, clamp_min_then_max _ _ _ hle]
  · intro fW tW ch hne h0
    have hnpos : ¬ tW > 0 := by rw [h0]; exact lt_irrefl 0
    constructor
    · simp only [rowChildWidth]
      rw [if_neg hne, if_neg hnpos]
    · simp only [colChildHeight]
      rw [if_neg hne, if_neg hnpos]

/-- Concrete instance of C1: a flex child of weight 1 in range `[0, 50]`
with `flexMain = 100` and total weight 2 receives `min 50 (100·1/2) = 50`. -/
theorem container_distribute_pass_witness :
    sampleFlexChild.type ≠ FlexTypeRigid ∧ (0 : ℚ) < 2
    ∧ sampleFlexChild.widget.getConstraints.minWidth
        ≤ sampleFlexChild.widget.getConstraints.maxWidth
    ∧ rowChildWidth 100 2 sampleFlexChild
        = max sampleFlexChild.widget.getConstraints.minWidth
            (min sampleFlexChild.widget.getConstraints.maxWidth
              (100 * sampleFlexChild.weight / 2)) :=
  ⟨by decide, by norm_num, by decide,
   (container_distribute_pass.2.2.2.2.2.2.1 100 2 sampleFlexChild
      (by decide) (by norm_num)).1 (by decide)⟩

/-- C2: a row container renders child `i` in a box at
`x = container x + (sum of the returned used widths of children 0..i-1)`,
`y = container y`, with assigned height equal to the container's full
available height, and returns used size `(sum of used widths, max of
used heights)` — this is exactly the spec-level pass
`rowRenderSpec`/`rowRenderSpecLoop`; symmetrically for columns; and a
container with zero children returns `(0, 0)` and no error. -/
theorem container_placement_and_used_size :
    (∀ (c : Container) (ctx : Context) (box : Box),
        c.direction = DirectionRow → c.children ≠ [] →
        c.render ctx box = rowRenderSpec c ctx box)
  ∧ (∀ (c : Container) (ctx : Context) (box : Box),
        c.direction = DirectionColumn → c.children ≠ [] →
        c.render ctx box = colRenderSpec c ctx box)
  ∧ (∀ (dir : Int) (cs : Constraints) (ctx : Context) (box : Box),
        (Container.mk dir [] cs).render ctx box = (⟨0, 0⟩, none)) := by
  refine ⟨?_, ?_, ?_⟩
  · intro c ctx box hdir hne
    have hemp : c.children.isEmpty = false := by
      cases hc : c.children with
      | nil => exact absurd hc hne
      | cons a l => rfl
    simp only [Container.render, hemp, Bool.false_eq_true, if_false, if_pos hdir]
    exact c.renderRow_eq_spec ctx box
  · intro c ctx box hdir hne
    have hemp : c.children.isEmpty = false := by
      cases hc : c.children with
      | nil => exact absurd hc hne
      | cons a l => rfl
    have hnrow : ¬ c.direction = DirectionRow := by
      rw [hdir]
      decide
    simp only [Container.render, hemp, Bool.false_eq_true, if_false, if_neg hnrow,
      if_pos hdir]
    exact c.renderColumn_eq_spec ctx box
  · intro dir cs ctx box
    rfl

/-- A sample row with one rigid and one flex child. -/
def sampleRow : Container :=
  ⟨DirectionRow, [sampleRigidChild, sampleFlexChild], ⟨0, 0, 1000000000, 1000000000, 0, 0⟩⟩

/-- Concrete instance of C2 on `sampleRow`. -/
theorem container_placement_and_used_size_witness :
    sampleRow.direction = DirectionRow ∧ sampleRow.children ≠ []
    ∧ sampleRow.render sampleCtx sampleBox = rowRenderSpec sampleRow sampleCtx sampleBox :=
  ⟨rfl, List.cons_ne_nil _ _,
   container_placement_and_used_size.1 sampleRow sampleCtx sampleBox rfl
     (List.cons_ne_nil _ _)⟩

/-- C3: `RootWidget.Render` with no child returns the assigned box's
size unchanged with no error; otherwise it renders the child (returning
its result unchanged) in the box positioned at
`(constraints.left, constraints.top)` whose size starts from
`(canvasWidth − left, canvasHeight − top)` and is clamped per axis with
the max bound applied before the min bound, i.e. equals
`max min (min max (canvas − offset))`. -/
theorem root_render_spec :
    (∀ (r : RootWidget) (ctx : Context) (box : Box), r.child = none →
        r.render ctx box = (box.size, none))
  ∧ (∀ (r : RootWidget) (w : Widget) (ctx : Context) (box : Box), r.child = some w →
        r.render ctx box
          = w.render
              (childContext ctx
                (rootChildBox w.getConstraints (ctx.windowWidth : ℚ) (ctx.windowHeight : ℚ)))
              (rootChildBox w.getConstraints (ctx.windowWidth : ℚ) (ctx.windowHeight : ℚ)))
  ∧ (∀ (cc : Constraints) (cw chh : ℚ),
        rootChildBox cc cw chh
          = { position := ⟨cc.left, cc.top⟩
              size := ⟨max cc.minWidth (min cc.maxWidth (cw - cc.left)),
                       max cc.minHeight (min cc.maxHeight (chh - cc.top))⟩
              constraints := cc }) := by
  refine ⟨?_, ?_, fun cc cw chh => rootChildBox_closed cc cw chh⟩
  · intro r ctx box h
    simp only [RootWidget.render, h]
  · intro r w ctx box h
    simp only [RootWidget.render, h]

/-- The sample child wrapped by the sample root widget. -/
def sampleRootChild : Widget := sampleLeaf ⟨0, 0, 50, 60, 5, 5⟩ 40 40

/-- A sample root widget. -/
def sampleRoot : RootWidget := ⟨some sampleRootChild, (0, 0, 0, 1)⟩

/-- Concrete instance of C3 on `sampleRoot`. -/
theorem root_render_spec_witness :
    sampleRoot.child = some sampleRootChild
    ∧ sampleRoot.render sampleCtx sampleBox
        = sampleRootChild.render
            (childContext sampleCtx
              (rootChildBox sampleRootChild.getConstraints
                (sampleCtx.windowWidth : ℚ) (sampleCtx.windowHeight : ℚ)))
            (rootChildBox sampleRootChild.getConstraints
              (sampleCtx.windowWidth : ℚ) (sampleCtx.windowHeight : ℚ)) :=
  ⟨rfl, root_render_spec.2.1 sampleRoot sampleRootChild sampleCtx sampleBox rfl⟩

/-- C4: in both the overlay and the gravity positioner each axis is
resolved independently: a rigid axis (`min = max`) resolves to exactly
`min` regardless of available space; a flexible axis clamps the starting
size (parent size minus the child's `(left, top)` offset for the
overlay, which also places the child at parent position plus that
offset; the parent size itself for the gravity positioner) with the max
bound applied before the min bound, i.e. to `max min (min max start)`. -/
theorem axis_resolution :
    (∀ (box : Box) (cc : Constraints),
        (cc.minWidth = cc.maxWidth →
            (overlayChildBox box cc).size.width = cc.minWidth)
        ∧ (cc.minWidth ≠ cc.maxWidth →
            (overlayChildBox box cc).size.width
              = max cc.minWidth (min cc.maxWidth (box.size.width - cc.left)))
        ∧ (cc.minHeight = cc.maxHeight →
            (overlayChildBox box cc).size.height = cc.minHeight)
        ∧ (cc.minHeight ≠ cc.maxHeight →
            (overlayChildBox box cc).size.height
              = max cc.minHeight (min cc.maxHeight (box.size.height - cc.top)))
        ∧ (overlayChildBox box cc).position
            = ⟨box.position.x + cc.left, box.position.y + cc.top⟩)
  ∧ (∀ (box : Box) (cc : Constraints),
        (cc.minWidth = cc.maxWidth → (gravityChildSize cc box).width = cc.minWidth)
        ∧ (cc.minWidth ≠ cc.maxWidth →
            (gravityChildSize cc box).width
              = max cc.minWidth (min cc.maxWidth box.size.width))
        ∧ (cc.minHeight = cc.maxHeight →
            (gravityChildSize cc box).height = cc.minHeight)
        ∧ (cc.minHeight ≠ cc.maxHeight →
            (gravityChildSize cc box).height
              = max cc.minHeight (min cc.maxHeight box.size.height))) := by
  constructor
  · intro box cc
    refine ⟨?_, ?_, ?_, ?_, rfl⟩
    · intro h
      simp only [overlayChildBox]
      rw [if_pos h]
    · intro h
      simp only [overlayChildBox]
      rw [if_neg h, clamp_max_then_min]
    · intro h
      simp only [overlayChildBox]
      rw [if_pos h]
    · intro h
      simp only [overlayChildBox]
      rw [if_neg h, clamp_max_then_min]
  · intro box cc
    refine ⟨?_, ?_, ?_, ?_⟩
    · intro h
      simp only [gravityChildSize]
      rw [if_pos h]
    · intro h
      simp only [gravityChildSize]
      rw [if_neg h, clamp_max_then_min_gt]
    · intro h
      simp only [gravityChildSize]
      rw [if_pos h]
    · intro h
      simp only [gravityChildSize]
      rw [if_neg h, clamp_max_then_min_gt]

/-- Concrete instance of C4: a child rigid in width (`min = max = 70`)
and flexible in height resolves to exactly 70 wide in the overlay even
though only `300 − 0 = 300` is available, and its height clamps to the
max bound 60. -/
theorem axis_resolution_witness :
    (70 : ℚ) = (70 : ℚ) ∧ (0 : ℚ) ≠ (60 : ℚ)
    ∧ (overlayChildBox sampleBox ⟨70, 0, 70, 60, 0, 0⟩).size.width = 70
    ∧ (overlayChildBox sampleBox ⟨70, 0, 70, 60, 0, 0⟩).size.height
        = max 0 (min 60 (sampleBox.size.height - 0)) :=
  ⟨rfl, by norm_num,
   (axis_resolution.1 sampleBox ⟨70, 0, 70, 60, 0, 0⟩).1 rfl,
   (axis_resolution.1 sampleBox ⟨70, 0, 70, 60, 0, 0⟩).2.2.2.1 (by norm_num)⟩

/-- C5: `DirectionWidget.Render` with no child returns the assigned box
size unchanged with no error; otherwise it renders the child (result
returned unchanged) in a box of the resolved size positioned by gravity:
center `(px+(pw−cw)/2, py+(ph−ch)/2)`, north `(px+(pw−cw)/2, py)`, south
`(px+(pw−cw)/2, py+ph−ch)`, east `(px+pw−cw, py+(ph−ch)/2)`, west
`(px, py+(ph−ch)/2)`, and the four corners combining the corresponding
edge rules. -/
theorem gravity_positions :
    (∀ (d : DirectionWidget) (ctx : Context) (box : Box), d.child = none →
        d.render ctx box = (box.size, none))
  ∧ (∀ (d : DirectionWidget) (w : Widget) (ctx : Context) (box : Box), d.child = some w →
        d.render ctx box
          = w.render
              (childContext ctx
                ⟨gravityChildPos d.gravity box (gravityChildSize w.getConstraints box).width
                    (gravityChildSize w.getConstraints box).height,
                  gravityChildSize w.getConstraints box, w.getConstraints⟩)
              ⟨gravityChildPos d.gravity box (gravityChildSize w.getConstraints box).width
                  (gravityChildSize w.getConstraints box).height,
                gravityChildSize w.getConstraints box, w.getConstraints⟩)
  ∧ (∀ (box : Box) (cw chh : ℚ),
        gravityChildPos GravityCenter box cw chh
          = ⟨box.position.x + (box.size.width - cw) / 2,
             box.position.y + (box.size.height - chh) / 2⟩
        ∧ gravityChildPos GravityNorth box cw chh
          = ⟨box.position.x + (box.size.width - cw) / 2, box.position.y⟩
        ∧ gravityChildPos GravitySouth box cw chh
          = ⟨box.position.x + (box.size.width - cw) / 2,
             box.position.y + box.size.height - chh⟩
        ∧ gravityChildPos GravityEast box cw chh
          = ⟨box.position.x + box.size.width - cw,
             box.position.y + (box.size.height - chh) / 2⟩
        ∧ gravityChildPos GravityWest box cw chh
          = ⟨box.position.x, box.position.y + (box.size.height - chh) / 2⟩
        ∧ gravityChildPos GravityNorthEast box cw chh
          = ⟨box.position.x + box.size.width - cw, box.position.y⟩
        ∧ gravityChildPos GravityNorthWest box cw chh
          = ⟨box.position.x, box.position.y⟩
        ∧ gravityChildPos GravitySouthEast box cw chh
          = ⟨box.position.x + box.size.width - cw,
             box.position.y + box.size.height - chh⟩
        ∧ gravityChildPos GravitySouthWest box cw chh
          = ⟨box.position.x, box.position.y + box.size.height - chh⟩) := by
  refine ⟨?_, ?_, ?_⟩
  · intro d ctx box h
    simp only [DirectionWidget.render, h]
  · intro d w ctx box h
    simp only [DirectionWidget.render, h]
  · intro box cw chh
    refine ⟨rfl, ?_, ?_, ?_, ?_, ?_, ?_, ?_, ?_⟩ <;>
      simp [gravityChildPos, GravityCenter, GravityNorth, GravitySouth, GravityEast,
        GravityWest, GravityNorthEast, GravityNorthWest, GravitySouthEast,
        GravitySouthWest]

/-- A sample gravity positioner anchoring its child to the south-east. -/
def sampleGravityWidget : DirectionWidget :=
  ⟨some sampleRootChild, GravitySouthEast, ⟨0, 0, 1000000000, 1000000000, 0, 0⟩⟩

/-- Concrete instance of C5 on `sampleGravityWidget`. -/
theorem gravity_positions_witness :
    sampleGravityWidget.child = some sampleRootChild
    ∧ sampleGravityWidget.render sampleCtx sampleBox
        = sampleRootChild.render
            (childContext sampleCtx
              ⟨gravityChildPos sampleGravityWidget.gravity sampleBox
                  (gravityChildSize sampleRootChild.getConstraints sampleBox).width
                  (gravityChildSize sampleRootChild.getConstraints sampleBox).height,
                gravityChildSize sampleRootChild.getConstraints sampleBox,
                sampleRootChild.getConstraints⟩)
            ⟨gravityChildPos sampleGravityWidget.gravity sampleBox
                (gravityChildSize sampleRootChild.getConstraints sampleBox).width
                (gravityChildSize sampleRootChild.getConstraints sampleBox).height,
              gravityChildSize sampleRootChild.getConstraints sampleBox,
              sampleRootChild.getConstraints⟩ :=
  ⟨rfl, gravity_positions.2.1 sampleGravityWidget sampleRootChild sampleCtx sampleBox rfl⟩

/-- C6: `OverlayWidget.Render` renders every child unconditionally in
declaration order (absent errors) and returns the per-axis maximum of
the children's reported used sizes — the spec-level pass
`overlayRenderSpecLoop`, which visits each child in order and combines
used sizes with per-axis `max`; with zero children it returns `(0, 0)`
and no error. -/
theorem overlay_used_size :
    (∀ (o : OverlayWidget) (ctx : Context) (box : Box),
        o.render ctx box = overlayRenderSpecLoop ctx box o.children)
  ∧ (∀ (cs : Constraints) (ctx : Context) (box : Box),
        (OverlayWidget.mk [] cs).render ctx box = (⟨0, 0⟩, none)) := by
  refine ⟨OverlayWidget.render_eq_spec, ?_⟩
  intro cs ctx box
  rfl

/-- C7 counterexample: a container with an invalid direction (2) but
zero children renders successfully, returning `(0, 0)` and no error —
the empty-children early return precedes the direction check, so the
claim "for every Container whose Direction is neither row nor column,
Render fails" is false for empty containers. -/
theorem container_invalid_direction_cex :
    (2 : Int) ≠ DirectionRow ∧ (2 : Int) ≠ DirectionColumn
    ∧ (Container.mk 2 [] ⟨0, 0, 1000000000, 1000000000, 0, 0⟩).render sampleCtx sampleBox
        = (⟨0, 0⟩, none) :=
  ⟨by decide, by decide, rfl⟩

/-- C7 (amended): every container with at least one child whose
direction is neither row nor column fails with the structural error
`invalid direction`. -/
theorem container_invalid_direction :
    ∀ (c : Container) (ctx : Context) (box : Box),
      c.children ≠ [] → c.direction ≠ DirectionRow → c.direction ≠ DirectionColumn →
      c.render ctx box = (⟨0, 0⟩, some .invalidDirection) := by
  intro c ctx box hne h1 h2
  have hemp : c.children.isEmpty = false := by
    cases hc : c.children with
    | nil => exact absurd hc hne
    | cons a l => rfl
  simp only [Container.render, hemp, Bool.false_eq_true, if_false, if_neg h1, if_neg h2]

/-- A container with one child and the invalid direction 2. -/
def sampleBadContainer : Container :=
  ⟨2, [sampleRigidChild], ⟨0, 0, 1000000000, 1000000000, 0, 0⟩⟩

/-- Concrete instance of the amended C7 on `sampleBadContainer`. -/
theorem container_invalid_direction_witness :
    sampleBadContainer.children ≠ [] ∧ sampleBadContainer.direction ≠ DirectionRow
    ∧ sampleBadContainer.direction ≠ DirectionColumn
    ∧ sampleBadContainer.render sampleCtx sampleBox = (⟨0, 0⟩, some .invalidDirection) :=
  ⟨List.cons_ne_nil _ _, by decide, by decide,
   container_invalid_direction sampleBadContainer sampleCtx sampleBox
     (List.cons_ne_nil _ _) (by decide) (by decide)⟩

/-- C8: when a child's render fails, the enclosing container row/column
pass or overlay pass stops at that child — the result does not depend on
the remaining siblings (`rest` is arbitrary and absent from the result)
— and the child's error value is returned unchanged. -/
theorem first_error_aborts :
    (∀ (ctx : Context) (box : Box) (fW tW : ℚ) (ch : FlexChild)
        (rest : List FlexChild) (off uW mH : ℚ) (s : Size) (e : Err),
        ch.widget.render (childContext ctx (rowChildBox box fW tW off ch))
            (rowChildBox box fW tW off ch) = (s, some e) →
        renderRowLoop ctx box fW tW (ch :: rest) off uW mH = (⟨0, 0⟩, some e))
  ∧ (∀ (ctx : Context) (box : Box) (fH tW : ℚ) (ch : FlexChild)
        (rest : List FlexChild) (off uH mW : ℚ) (s : Size) (e : Err),
        ch.widget.render (childContext ctx (colChildBox box fH tW off ch))
            (colChildBox box fH tW off ch) = (s, some e) →
        renderColumnLoop ctx box fH tW (ch :: rest) off uH mW = (⟨0, 0⟩, some e))
  ∧ (∀ (ctx : Context) (box : Box) (child : Widget) (rest : List Widget)
        (maxUsed s : Size) (e : Err),
        child.render (childContext ctx (overlayChildBox box child.getConstraints))
            (overlayChildBox box child.getConstraints) = (s, some e) →
        overlayLoop ctx box (child :: rest) maxUsed = (⟨0, 0⟩, some e)) := by
  refine ⟨?_, ?_, ?_⟩
  · intro ctx box fW tW ch rest off uW mH s e h
    simp only [renderRowLoop]
    rw [h]
  · intro ctx box fH tW ch rest off uH mW s e h
    simp only [renderColumnLoop]
    rw [h]
  · intro ctx box child rest maxUsed s e h
    simp only [overlayLoop]
    rw [h]

/-- Concrete instance of C8: a failing first child aborts the row pass
with its error even though a healthy sibling follows. -/
theorem first_error_aborts_witness :
    sampleFailChild.widget.render
        (childContext sampleCtx (rowChildBox sampleBox 0 0 0 sampleFailChild))
        (rowChildBox sampleBox 0 0 0 sampleFailChild) = (⟨0, 0⟩, some (.drawing 7))
    ∧ renderRowLoop sampleCtx sampleBox 0 0 [sampleFailChild, sampleRigidChild] 0 0 0
        = (⟨0, 0⟩, some (.drawing 7)) :=
  ⟨rfl,
   first_error_aborts.1 sampleCtx sampleBox 0 0 sampleFailChild [sampleRigidChild]
     0 0 0 ⟨0, 0⟩ (.drawing 7) rfl⟩

/-- C9: whenever every constraint involved satisfies `0 ≤ min ≤ max` on
both axes and the parent box (or canvas, for the root) has non-negative
dimensions, every box the four structural widgets build for a child has
non-negative width and height — including when a child's left/top offset
exceeds the available size, where the min clamp restores
non-negativity. -/
theorem child_box_sizes_nonneg :
    (∀ (cc : Constraints) (cw chh : ℚ),
        0 ≤ cw → 0 ≤ chh →
        0 ≤ cc.minWidth → cc.minWidth ≤ cc.maxWidth →
        0 ≤ cc.minHeight → cc.minHeight ≤ cc.maxHeight →
        0 ≤ (rootChildBox cc cw chh).size.width
        ∧ 0 ≤ (rootChildBox cc cw chh).size.height)
  ∧ (∀ (box : Box) (cc : Constraints),
        0 ≤ cc.minWidth → cc.minWidth ≤ cc.maxWidth →
        0 ≤ cc.minHeight → cc.minHeight ≤ cc.maxHeight →
        0 ≤ (overlayChildBox box cc).size.width
        ∧ 0 ≤ (overlayChildBox box cc).size.height)
  ∧ (∀ (box : Box) (cc : Constraints),
        0 ≤ cc.minWidth → cc.minWidth ≤ cc.maxWidth →
        0 ≤ cc.minHeight → cc.minHeight ≤ cc.maxHeight →
        0 ≤ (gravityChildSize cc box).width ∧ 0 ≤ (gravityChildSize cc box).height)
  ∧ (∀ (box : Box) (fW tW off : ℚ) (ch : FlexChild),
        0 ≤ ch.widget.getConstraints.minWidth →
        ch.widget.getConstraints.minWidth ≤ ch.widget.getConstraints.maxWidth →
        0 ≤ box.size.height →
        0 ≤ (rowChildBox box fW tW off ch).size.width
        ∧ 0 ≤ (rowChildBox box fW tW off ch).size.height)
  ∧ (∀ (box : Box) (fH tW off : ℚ) (ch : FlexChild),
        0 ≤ ch.widget.getConstraints.minHeight →
        ch.widget.getConstraints.minHeight ≤ ch.widget.getConstraints.maxHeight →
        0 ≤ box.size.width →
        0 ≤ (colChildBox box fH tW off ch).size.width
        ∧ 0 ≤ (colChildBox box fH tW off ch).size.height) := by
  refine ⟨?_, ?_, ?_, ?_, ?_⟩
  · intro cc cw chh hcw hch h1 h2 h3 h4
    rw [rootChildBox_closed]
    exact ⟨le_trans h1 (le_max_left _ _), le_trans h3 (le_max_left _ _)⟩
  · intro box cc h1 h2 h3 h4
    constructor
    · simp only [overlayChildBox]
      split_ifs <;> linarith
    · simp only [overlayChildBox]
      split_ifs <;> linarith
  · intro box cc h1 h2 h3 h4
    constructor
    · simp only [gravityChildSize]
      split_ifs <;> linarith
    · simp only [gravityChildSize]
      split_ifs <;> linarith
  · intro box fW tW off ch h1 h2 hbox
    constructor
    · simp only [rowChildBox, rowChildWidth]
      split_ifs <;> linarith
    · exact hbox
  · intro box fH tW off ch h1 h2 hbox
    constructor
    · exact hbox
    · simp only [colChildBox, colChildHeight]
      split_ifs <;> linarith

/-- Concrete instance of C9: an overlay child whose left offset 400
exceeds the available width 300 still gets a non-negative box (the min
clamp restores it). -/
theorem child_box_sizes_nonneg_witness :
    (0 : ℚ) ≤ 20 ∧ (20 : ℚ) ≤ 500 ∧ (0 : ℚ) ≤ 10 ∧ (10 : ℚ) ≤ 500
    ∧ (0 ≤ (overlayChildBox sampleBox ⟨20, 10, 500, 500, 0, 400⟩).size.width
       ∧ 0 ≤ (overlayChildBox sampleBox ⟨20, 10, 500, 500, 0, 400⟩).size.height) :=
  ⟨by norm_num, by norm_num, by norm_num, by norm_num,
   child_box_sizes_nonneg.2.1 sampleBox ⟨20, 10, 500, 500, 0, 400⟩
     (by norm_num) (by norm_num) (by norm_num) (by norm_num)⟩

/-- C10: whenever a container (row or column) or the overlay returns a
non-nil error, the used size returned alongside it is the zero size —
the sizes accumulated from earlier successful siblings are discarded. -/
theorem error_discards_used_size :
    (∀ (c : Container) (ctx : Context) (box : Box) (e : Err),
        (c.render ctx box).2 = some e → (c.render ctx box).1 = ⟨0, 0⟩)
  ∧ (∀ (o : OverlayWidget) (ctx : Context) (box : Box) (e : Err),
        (o.render ctx box).2 = some e → (o.render ctx box).1 = ⟨0, 0⟩) := by
  constructor
  · intro c ctx box e h
    by_cases hemp : c.children.isEmpty = true
    · simp only [Container.render, if_pos hemp] at h
      simp at h
    · by_cases hrow : c.direction = DirectionRow
      · simp only [Container.render, if_neg hemp, if_pos hrow] at h ⊢
        exact renderRowLoop_error_size ctx box (c.rowFlexWidth box) c.totalFlexWeight
          c.children 0 0 0 (c.renderRow ctx box).1 e (by rw [← h]; rfl)
      · by_cases hcol : c.direction = DirectionColumn
        · simp only [Container.render, if_neg hemp, if_neg hrow, if_pos hcol] at h ⊢
          exact renderColumnLoop_error_size ctx box (c.colFlexHeight box) c.totalFlexWeight
            c.children 0 0 0 (c.renderColumn ctx box).1 e (by rw [← h]; rfl)
        · have hren : c.render ctx box = (⟨0, 0⟩, some Err.invalidDirection) := by
            simp only [Container.render, if_neg hemp, if_neg hrow, if_neg hcol]
          rw [hren]
  · intro o ctx box e h
    exact overlayLoop_error_size ctx box o.children ⟨0, 0⟩ (o.render ctx box).1 e
      (by rw [← h]; rfl)

/-- A row whose second child fails after the first succeeds. -/
def sampleFailRow : Container :=
  ⟨DirectionRow, [sampleRigidChild, sampleFailChild], ⟨0, 0, 1000000000, 1000000000, 0, 0⟩⟩

/-- Concrete instance of C10 on `sampleFailRow`: the rigid first child
succeeds with width 50, yet the reported used size is `(0, 0)`. -/
theorem error_discards_used_size_witness :
    (sampleFailRow.render sampleCtx sampleBox).2 = some (.drawing 7)
    ∧ (sampleFailRow.render sampleCtx sampleBox).1 = ⟨0, 0⟩ :=
  ⟨rfl,
   error_discards_used_size.1 sampleFailRow sampleCtx sampleBox (.drawing 7) rfl⟩
